import Mathlib

/-!
Verification of the klever channel core (src/klever/channel.py).

The development shallowly embeds the channel layer: the shared bookkeeping
(`_Channel.__init__`, `add_sender`, `remove_sender`, ...), the three
mode-specific algorithms (`_QueueChannel`, `_BroadcastChannel`,
`_RendezvousChannel`), the endpoint layer (`Sender`, `Receiver`,
`_Endpoint.clone`, `close`, `derive_*`, `send_eventually`,
`receive_eventually`) and the factory `create`.

Python exceptions are modelled by an error sum; cocotb `Event` objects by
numeric identities together with the list of identities that have been
`set()`; cocotb tasks by numeric identities with a liveness oracle
`done : Nat -> Bool`; the cocotb `Queue` of `_QueueChannel` by an explicit
buffer plus explicit lists of suspended getters and putters.  Machine
integers are Lean `Int` (Python integers are unbounded).
-/

namespace Klever

/-- Exceptions of the channel layer: `DisconnectedError`, `ClosedError`
(channel.py lines 54-59), Python `ValueError` (configuration errors) and
`TypeError` (copy-contract violation), and `KeyError` (missing dict key). -/
inductive ChanError
  | disconnected
  | closedError
  | valueError
  | typeError
  | keyError
deriving DecidableEq, Repr

/-- The bookkeeping shared by all channel modes (`_Channel.__init__`, lines
69-85): the two reference counts and the two availability signals.  A signal
is modelled by the boolean produced by `Event.is_set()`. -/
structure Book where
  open_senders : Int
  open_receivers : Int
  senders_available : Bool
  receivers_available : Bool
deriving DecidableEq, Repr

/-- The bookkeeping of a freshly constructed channel: both counts zero, both
events initially not set. -/
def Book.fresh : Book := ⟨0, 0, false, false⟩

/-- `_Channel.add_sender` (lines 90-93): increment the count and set the
signal. -/
def add_sender (b : Book) : Book :=
  { b with open_senders := b.open_senders + 1, senders_available := true }

/-- `_Channel.add_receiver` (lines 95-98). -/
def add_receiver (b : Book) : Book :=
  { b with open_receivers := b.open_receivers + 1, receivers_available := true }

/-- `_Channel.remove_sender` (lines 100-104): decrement the count and clear
the signal exactly when the count has reached zero. -/
def remove_sender (b : Book) : Book :=
  let n := b.open_senders - 1
  { b with open_senders := n,
           senders_available := if n = 0 then false else b.senders_available }

/-- `_Channel.remove_receiver` (lines 106-110). -/
def remove_receiver (b : Book) : Book :=
  let n := b.open_receivers - 1
  { b with open_receivers := n,
           receivers_available := if n = 0 then false else b.receivers_available }

/-- `Sender._init` (lines 349-356): raise `ValueError` when the channel is
restricted to a single producer and a sender is already present, else
register the endpoint through `add_sender`. -/
def senderInit (only_single_producer : Bool) (b : Book) : Except ChanError Book :=
  if only_single_producer ∧ b.senders_available then Except.error ChanError.valueError
  else Except.ok (add_sender b)

/-- `Receiver._init` (lines 420-427). -/
def receiverInit (only_single_consumer : Bool) (b : Book) : Except ChanError Book :=
  if only_single_consumer ∧ b.receivers_available then Except.error ChanError.valueError
  else Except.ok (add_receiver b)

/-- The mode selected by the factory: `_BroadcastChannel`,
`_RendezvousChannel`, or `_QueueChannel` with its capacity. -/
inductive ModeTag
  | broadcastMode
  | rendezvousMode
  | queueMode (capacity : Int)
deriving DecidableEq, Repr

/-- The observable outcome of `create` (lines 495-533): selected mode, final
bookkeeping, and the three construction flags. -/
structure CreatedChannel where
  mode : ModeTag
  book : Book
  copy_on_send : Bool
  only_single_producer : Bool
  only_single_consumer : Bool
deriving DecidableEq, Repr

/-- The factory `create` (lines 495-533).  Mode selection in source order:
`broadcast` first, then `capacity == 0` giving rendezvous, else a queue
channel whose constructor (`_QueueChannel.__init__`, lines 148-153) raises
`ValueError` when the capacity is below one.  Afterwards the two endpoints
are created (`Sender._create` then `Receiver._create`, line 533), each
registering itself on the fresh bookkeeping. -/
def create (capacity : Int)
    (broadcast copy_on_send only_single_producer only_single_consumer : Bool) :
    Except ChanError CreatedChannel :=
  match (if broadcast then Except.ok ModeTag.broadcastMode
         else if capacity = 0 then Except.ok ModeTag.rendezvousMode
         else if capacity < 1 then Except.error ChanError.valueError
         else Except.ok (ModeTag.queueMode capacity) :
         Except ChanError ModeTag) with
  | Except.error e => Except.error e
  | Except.ok mode =>
    match senderInit only_single_producer Book.fresh with
    | Except.error e => Except.error e
    | Except.ok b1 =>
      match receiverInit only_single_consumer b1 with
      | Except.error e => Except.error e
      | Except.ok b2 =>
          Except.ok ⟨mode, b2, copy_on_send, only_single_producer, only_single_consumer⟩

/-- The bookkeeping `create` leaves behind on success: one open sender, one
open receiver, both signals set. -/
def Book.created : Book := ⟨1, 1, true, true⟩

/-! ## Endpoint lifecycle

The endpoint layer keeps, per channel, the collection of endpoints that have
been handed out.  An endpoint is open while `self._channel` is not `None`;
`close` makes it `None`.  The system state below records each sender and
receiver endpoint ever created, with `true` meaning still open, together
with the channel bookkeeping they all share. -/

/-- The outcome of an endpoint operation: the new system state, or an
exception together with the system state at the moment it was raised. -/
inductive OpRes (σ : Type)
  | ok (s : σ)
  | raised (e : ChanError) (s : σ)
deriving DecidableEq, Repr

/-- The state an operation leaves behind, whether it returned or raised. -/
def OpRes.state {σ : Type} : OpRes σ → σ
  | OpRes.ok s => s
  | OpRes.raised _ s => s

/-- One channel together with every endpoint created on it. -/
structure SysState where
  book : Book
  senders : List Bool
  receivers : List Bool
deriving DecidableEq, Repr

/-- Whether the endpoint at position `i` exists and is still open. -/
def isOpenAt (l : List Bool) (i : Nat) : Bool := l.getD i false

/-- `_Endpoint.clone` called on the sender at position `i` (lines 307-313
and `Sender._init`, lines 349-356): on a closed endpoint raise
`ValueError` (line 310); otherwise run `Sender._init` on the shared
channel, which either raises the single-producer `ValueError` before
touching the bookkeeping or registers a new open sender. -/
def cloneSenderOp (sp : Bool) (s : SysState) (i : Nat) : OpRes SysState :=
  if isOpenAt s.senders i then
    match senderInit sp s.book with
    | Except.error e => OpRes.raised e s
    | Except.ok b => OpRes.ok { s with book := b, senders := s.senders ++ [true] }
  else OpRes.raised ChanError.valueError s

/-- `_Endpoint.clone` called on the receiver at position `i`. -/
def cloneReceiverOp (sc : Bool) (s : SysState) (i : Nat) : OpRes SysState :=
  if isOpenAt s.receivers i then
    match receiverInit sc s.book with
    | Except.error e => OpRes.raised e s
    | Except.ok b => OpRes.ok { s with book := b, receivers := s.receivers ++ [true] }
  else OpRes.raised ChanError.valueError s

/-- `Sender.derive_receiver` on the sender at position `i` (lines 407-413):
`ClosedError` on a closed endpoint, else `Receiver._create` on the shared
channel. -/
def deriveReceiverOp (sc : Bool) (s : SysState) (i : Nat) : OpRes SysState :=
  if isOpenAt s.senders i then
    match receiverInit sc s.book with
    | Except.error e => OpRes.raised e s
    | Except.ok b => OpRes.ok { s with book := b, receivers := s.receivers ++ [true] }
  else OpRes.raised ChanError.closedError s

/-- `Receiver.derive_sender` on the receiver at position `i` (lines 486-492). -/
def deriveSenderOp (sp : Bool) (s : SysState) (i : Nat) : OpRes SysState :=
  if isOpenAt s.receivers i then
    match senderInit sp s.book with
    | Except.error e => OpRes.raised e s
    | Except.ok b => OpRes.ok { s with book := b, senders := s.senders ++ [true] }
  else OpRes.raised ChanError.closedError s

/-- `Sender.close` on the sender at position `i` (lines 395-405): a no-op on
a closed endpoint, else `remove_sender` on the bookkeeping followed by
clearing the endpoint's channel reference. -/
def closeSenderOp (s : SysState) (i : Nat) : SysState :=
  if isOpenAt s.senders i then
    { s with book := remove_sender s.book, senders := s.senders.set i false }
  else s

/-- `Receiver.close` on the receiver at position `i` (lines 477-484). -/
def closeReceiverOp (s : SysState) (i : Nat) : SysState :=
  if isOpenAt s.receivers i then
    { s with book := remove_receiver s.book, receivers := s.receivers.set i false }
  else s

/-- One endpoint operation of the lifecycle protocol. -/
inductive EpOp
  | cloneSender (i : Nat)
  | cloneReceiver (i : Nat)
  | deriveReceiverFrom (i : Nat)
  | deriveSenderFrom (i : Nat)
  | closeSender (i : Nat)
  | closeReceiver (i : Nat)
deriving DecidableEq, Repr

/-- Apply one lifecycle operation; a raised exception leaves the state it
was raised in. -/
def applyOp (sp sc : Bool) (s : SysState) (op : EpOp) : SysState :=
  match op with
  | EpOp.cloneSender i => (cloneSenderOp sp s i).state
  | EpOp.cloneReceiver i => (cloneReceiverOp sc s i).state
  | EpOp.deriveReceiverFrom i => (deriveReceiverOp sc s i).state
  | EpOp.deriveSenderFrom i => (deriveSenderOp sp s i).state
  | EpOp.closeSender i => closeSenderOp s i
  | EpOp.closeReceiver i => closeReceiverOp s i

/-- The system state right after `create` succeeds: one open sender and one
open receiver. -/
def createdSys : SysState := ⟨Book.created, [true], [true]⟩

/-- Setting an open slot to `false` removes exactly one `true` from the
list. -/
theorem count_set_false (l : List Bool) (i : Nat) (h : l.getD i false = true) :
    (l.set i false).count true + 1 = l.count true := by
  induction l generalizing i with
  | nil => simp [List.getD] at h
  | cons a t ih =>
    cases i with
    | zero =>
      simp only [List.getD_cons_zero] at h
      subst h
      simp [List.count_cons]
    | succ j =>
      simp only [List.getD_cons_succ] at h
      have := ih j h
      simp only [List.set_cons_succ, List.count_cons]
      omega

/-- A list with an open slot has a positive count of open slots. -/
theorem count_pos_of_open (l : List Bool) (i : Nat) (h : l.getD i false = true) :
    0 < l.count true := by
  induction l generalizing i with
  | nil => simp [List.getD] at h
  | cons a t ih =>
    cases i with
    | zero =>
      simp only [List.getD_cons_zero] at h
      subst h
      simp [List.count_cons]
    | succ j =>
      simp only [List.getD_cons_succ] at h
      have := ih j h
      simp only [List.count_cons]
      omega

/-- The per-role invariant: the reference count equals the number of open
endpoints of the role, and the availability signal is set exactly when that
count is positive. -/
def RoleInv (c : Int) (avail : Bool) (l : List Bool) : Prop :=
  c = (l.count true : Int) ∧ avail = decide (0 < l.count true)

theorem roleInv_add {c : Int} {avail : Bool} {l : List Bool}
    (h : RoleInv c avail l) : RoleInv (c + 1) true (l ++ [true]) := by
  obtain ⟨h1, _⟩ := h
  refine ⟨?_, ?_⟩
  · rw [h1]
    simp [List.count_append]
  · simp [List.count_append]

theorem roleInv_remove {c : Int} {avail : Bool} {l : List Bool} (i : Nat)
    (h : RoleInv c avail l) (ho : l.getD i false = true) :
    RoleInv (c - 1) (if c - 1 = 0 then false else avail) (l.set i false) := by
  obtain ⟨h1, h2⟩ := h
  have hc := count_set_false l i ho
  have h1' : c - 1 = ((l.set i false).count true : Int) := by omega
  refine ⟨h1', ?_⟩
  by_cases hz : c - 1 = 0
  · have hzc : (l.set i false).count true = 0 := by omega
    simp [hz, hzc]
  · have hpos2 : 0 < l.count true := count_pos_of_open l i ho
    rw [if_neg hz, h2, decide_eq_decide]
    omega

/-- The invariant of claim C6: both roles satisfy `RoleInv`. -/
def SysInv (s : SysState) : Prop :=
  RoleInv s.book.open_senders s.book.senders_available s.senders ∧
  RoleInv s.book.open_receivers s.book.receivers_available s.receivers

theorem cloneSenderOp_state (sp : Bool) (s : SysState) (i : Nat) :
    (cloneSenderOp sp s i).state =
      if isOpenAt s.senders i ∧ ¬ (sp ∧ s.book.senders_available) then
        { s with book := add_sender s.book, senders := s.senders ++ [true] }
      else s := by
  unfold cloneSenderOp senderInit
  by_cases ho : isOpenAt s.senders i <;> by_cases hb : sp ∧ s.book.senders_available <;>
    simp [ho, hb, OpRes.state]

theorem cloneReceiverOp_state (sc : Bool) (s : SysState) (i : Nat) :
    (cloneReceiverOp sc s i).state =
      if isOpenAt s.receivers i ∧ ¬ (sc ∧ s.book.receivers_available) then
        { s with book := add_receiver s.book, receivers := s.receivers ++ [true] }
      else s := by
  unfold cloneReceiverOp receiverInit
  by_cases ho : isOpenAt s.receivers i <;> by_cases hb : sc ∧ s.book.receivers_available <;>
    simp [ho, hb, OpRes.state]

theorem deriveReceiverOp_state (sc : Bool) (s : SysState) (i : Nat) :
    (deriveReceiverOp sc s i).state =
      if isOpenAt s.senders i ∧ ¬ (sc ∧ s.book.receivers_available) then
        { s with book := add_receiver s.book, receivers := s.receivers ++ [true] }
      else s := by
  unfold deriveReceiverOp receiverInit
  by_cases ho : isOpenAt s.senders i <;> by_cases hb : sc ∧ s.book.receivers_available <;>
    simp [ho, hb, OpRes.state]

theorem deriveSenderOp_state (sp : Bool) (s : SysState) (i : Nat) :
    (deriveSenderOp sp s i).state =
      if isOpenAt s.receivers i ∧ ¬ (sp ∧ s.book.senders_available) then
        { s with book := add_sender s.book, senders := s.senders ++ [true] }
      else s := by
  unfold deriveSenderOp senderInit
  by_cases ho : isOpenAt s.receivers i <;> by_cases hb : sp ∧ s.book.senders_available <;>
    simp [ho, hb, OpRes.state]

theorem sysInv_applyOp (sp sc : Bool) (s : SysState) (op : EpOp)
    (h : SysInv s) : SysInv (applyOp sp sc s op) := by
  obtain ⟨hs, hr⟩ := h
  cases op with
  | cloneSender i =>
    rw [applyOp, cloneSenderOp_state]
    split_ifs with hcond
    · exact ⟨roleInv_add hs, hr⟩
    · exact ⟨hs, hr⟩
  | cloneReceiver i =>
    rw [applyOp, cloneReceiverOp_state]
    split_ifs with hcond
    · exact ⟨hs, roleInv_add hr⟩
    · exact ⟨hs, hr⟩
  | deriveReceiverFrom i =>
    rw [applyOp, deriveReceiverOp_state]
    split_ifs with hcond
    · exact ⟨hs, roleInv_add hr⟩
    · exact ⟨hs, hr⟩
  | deriveSenderFrom i =>
    rw [applyOp, deriveSenderOp_state]
    split_ifs with hcond
    · exact ⟨roleInv_add hs, hr⟩
    · exact ⟨hs, hr⟩
  | closeSender i =>
    rw [applyOp, closeSenderOp]
    split_ifs with hcond
    · exact ⟨roleInv_remove i hs hcond, hr⟩
    · exact ⟨hs, hr⟩
  | closeReceiver i =>
    rw [applyOp, closeReceiverOp]
    split_ifs with hcond
    · exact ⟨hs, roleInv_remove i hr hcond⟩
    · exact ⟨hs, hr⟩

theorem sysInv_foldl (sp sc : Bool) (ops : List EpOp) (s : SysState)
    (h : SysInv s) : SysInv (ops.foldl (applyOp sp sc) s) := by
  induction ops generalizing s with
  | nil => exact h
  | cons op rest ih => exact ih _ (sysInv_applyOp sp sc s op h)

theorem sysInv_created : SysInv createdSys := by
  refine ⟨⟨?_, ?_⟩, ⟨?_, ?_⟩⟩ <;> simp [createdSys, Book.created]

/-- Claim C6: for every channel and every sequence of endpoint operations
(create, clone, derive, close), `open_senders == 0` iff `senders_available`
is cleared and `open_receivers == 0` iff `receivers_available` is cleared;
every operation that changes a count re-establishes the signal state. -/
theorem C6_count_signal_invariant (sp sc : Bool) (ops : List EpOp) :
    ((ops.foldl (applyOp sp sc) createdSys).book.open_senders = 0 ↔
      (ops.foldl (applyOp sp sc) createdSys).book.senders_available = false) ∧
    ((ops.foldl (applyOp sp sc) createdSys).book.open_receivers = 0 ↔
      (ops.foldl (applyOp sp sc) createdSys).book.receivers_available = false) := by
  obtain ⟨⟨h1, h2⟩, h3, h4⟩ := sysInv_foldl sp sc ops createdSys sysInv_created
  constructor
  · rw [h1, h2]
    simp only [decide_eq_false_iff_not]
    omega
  · rw [h3, h4]
    simp only [decide_eq_false_iff_not]
    omega

/-- Claim C5: `create` selects the mode in priority order (`broadcast`
first, ignoring capacity; then capacity zero giving rendezvous; else a
queue of that capacity), fails with a configuration error for a negative
capacity, and on success leaves both counts at one with both signals set. -/
theorem C5_create_mode_selection (c : Int) (cos sp sc : Bool) :
    (create c true cos sp sc =
      Except.ok ⟨ModeTag.broadcastMode, Book.created, cos, sp, sc⟩) ∧
    (c = 0 → create c false cos sp sc =
      Except.ok ⟨ModeTag.rendezvousMode, Book.created, cos, sp, sc⟩) ∧
    (0 < c → create c false cos sp sc =
      Except.ok ⟨ModeTag.queueMode c, Book.created, cos, sp, sc⟩) ∧
    (c < 0 → create c false cos sp sc = Except.error ChanError.valueError) := by
  refine ⟨?_, ?_, ?_, ?_⟩
  · simp [create, senderInit, receiverInit, add_sender, add_receiver, Book.fresh,
      Book.created]
  · intro h0
    subst h0
    simp [create, senderInit, receiverInit, add_sender, add_receiver, Book.fresh,
      Book.created]
  · intro hpos
    have h0 : ¬ c = 0 := by omega
    have h1 : ¬ c < 1 := by omega
    simp [create, h0, h1, senderInit, receiverInit, add_sender, add_receiver,
      Book.fresh, Book.created]
  · intro hneg
    have h0 : ¬ c = 0 := by omega
    have h1 : c < 1 := by omega
    simp [create, h0, h1]

/-- Witness for C5 at concrete capacities 3, 0, 2, -1. -/
theorem C5_create_mode_selection_witness :
    create 3 true false false false =
      Except.ok ⟨ModeTag.broadcastMode, Book.created, false, false, false⟩ ∧
    create 0 false false false false =
      Except.ok ⟨ModeTag.rendezvousMode, Book.created, false, false, false⟩ ∧
    create 2 false false false false =
      Except.ok ⟨ModeTag.queueMode 2, Book.created, false, false, false⟩ ∧
    create (-1) false false false false = Except.error ChanError.valueError :=
  ⟨(C5_create_mode_selection 3 false false false).1,
   (C5_create_mode_selection 0 false false false).2.1 rfl,
   (C5_create_mode_selection 2 false false false).2.2.1 (by norm_num),
   (C5_create_mode_selection (-1) false false false).2.2.2 (by norm_num)⟩

/-! ## Queue mode (`_QueueChannel`, lines 138-177)

The cocotb `Queue` buffer is explicit: its contents, plus the tasks
suspended inside `buffer.get()` (buffer empty) and inside `buffer.put(v)`
(buffer full).  A task suspended in `put` carries the value it will
enqueue once woken by a `get`. -/

structure QState (V : Type) where
  book : Book
  capacity : Int
  copy_on_send : Bool
  buffer : List V
  getWaiters : List Nat
  putWaiters : List (Nat × V)
deriving DecidableEq, Repr

/-- Outcome of `_QueueChannel.send`: returned, suspended inside
`buffer.put`, or raised. -/
inductive QSendOut (V : Type)
  | ok (s : QState V)
  | blocked (s : QState V)
  | raised (e : ChanError) (s : QState V)
deriving DecidableEq, Repr

/-- Outcome of `_QueueChannel.receive`: a value (with the tasks whose
pending `put` the dequeue completed), suspension inside `buffer.get`, or an
exception. -/
inductive QRecvOut (V : Type)
  | got (v : V) (woken : List Nat) (s : QState V)
  | blocked (s : QState V)
  | raised (e : ChanError) (s : QState V)
deriving DecidableEq, Repr

/-- `_QueueChannel.send` (lines 160-170): the copy-contract check and the
copy itself, then the disconnection check, then `await self._buffer.put(value)`
which enqueues when the buffer holds fewer than `capacity` items and
otherwise suspends the calling task as a putter. -/
def queueSend (supportsCopy : V → Bool) (copy : V → V)
    (s : QState V) (task : Nat) (value : V) : QSendOut V :=
  if s.copy_on_send ∧ ¬ supportsCopy value then QSendOut.raised ChanError.typeError s
  else
    let v := if s.copy_on_send then copy value else value
    if ¬ s.book.receivers_available then QSendOut.raised ChanError.disconnected s
    else if (s.buffer.length : Int) < s.capacity then
      QSendOut.ok { s with buffer := s.buffer ++ [v] }
    else
      QSendOut.blocked { s with putWaiters := s.putWaiters ++ [(task, v)] }

/-- `_QueueChannel.receive` (lines 172-177): the disconnection check, then
`await self._buffer.get()`, which dequeues the head when the buffer is
non-empty (waking the first suspended putter, whose pending value then
enters the buffer) and otherwise suspends the calling task as a getter. -/
def queueReceive (s : QState V) (task : Nat) : QRecvOut V :=
  if ¬ s.book.senders_available then QRecvOut.raised ChanError.disconnected s
  else
    match s.buffer, s.putWaiters with
    | [], _ => QRecvOut.blocked { s with getWaiters := s.getWaiters ++ [task] }
    | v :: rest, [] => QRecvOut.got v [] { s with buffer := rest }
    | v :: rest, (t, w) :: ps =>
        QRecvOut.got v [t] { s with buffer := rest ++ [w], putWaiters := ps }

/-- `Sender.close` on the last open sender of a queue channel (lines
395-405): under the lock it calls only `remove_sender`, which decrements
the count and clears `senders_available`; no event of any suspended task
is set, so the list of tasks the close wakes is empty. -/
def queueCloseSender (s : QState V) : QState V × List Nat :=
  ({ s with book := remove_sender s.book }, [])

/-- `Receiver.close` on a queue channel (lines 477-484): only
`remove_receiver` runs; no suspended task is woken. -/
def queueCloseReceiver (s : QState V) : QState V × List Nat :=
  ({ s with book := remove_receiver s.book }, [])

/-- A sequential program against one queue channel. -/
inductive QOp (V : Type)
  | send (v : V)
  | receive
deriving DecidableEq, Repr

/-- The values a program passes to successive `send` calls, in order. -/
def sentValues {V : Type} : List (QOp V) → List V
  | [] => []
  | QOp.send v :: rest => v :: sentValues rest
  | QOp.receive :: rest => sentValues rest

/-- Run a program of sends and receives; `none` when any operation
suspends or raises, else the values the receives returned, in order. -/
def runQueueOps (supportsCopy : V → Bool) (copy : V → V) :
    List (QOp V) → QState V → Option (List V × QState V)
  | [], s => some ([], s)
  | QOp.send v :: rest, s =>
    match queueSend supportsCopy copy s 0 v with
    | QSendOut.ok s1 => runQueueOps supportsCopy copy rest s1
    | _ => none
  | QOp.receive :: rest, s =>
    match queueReceive s 0 with
    | QRecvOut.got v _ s1 =>
      match runQueueOps supportsCopy copy rest s1 with
      | some (vs, s2) => some (v :: vs, s2)
      | _ => none
    | _ => none

theorem queueSend_ok_elim {V : Type} (sc : V → Bool) (cp : V → V)
    (s : QState V) (task : Nat) (v : V) (s1 : QState V)
    (hcos : s.copy_on_send = false)
    (h : queueSend sc cp s task v = QSendOut.ok s1) :
    s1 = { s with buffer := s.buffer ++ [v] } := by
  unfold queueSend at h
  rw [hcos] at h
  simp only [Bool.false_eq_true, false_and, if_false] at h
  by_cases h1 : s.book.receivers_available
  · rw [if_neg (not_not_intro h1)] at h
    by_cases h2 : (s.buffer.length : Int) < s.capacity
    · rw [if_pos h2] at h
      simp only [QSendOut.ok.injEq] at h
      rw [hcos]
      exact h.symm
    · rw [if_neg h2] at h
      simp at h
  · rw [if_pos h1] at h
    simp at h

theorem queueReceive_got_elim {V : Type} (s : QState V) (task : Nat)
    (v : V) (w : List Nat) (s1 : QState V)
    (hpw : s.putWaiters = [])
    (h : queueReceive s task = QRecvOut.got v w s1) :
    ∃ restBuf, s.buffer = v :: restBuf ∧ s1 = { s with buffer := restBuf } := by
  unfold queueReceive at h
  by_cases h1 : s.book.senders_available
  · rw [if_neg (not_not_intro h1), hpw] at h
    cases hb : s.buffer with
    | nil => rw [hb] at h; simp at h
    | cons x restBuf =>
      rw [hb] at h
      simp only [QRecvOut.got.injEq] at h
      obtain ⟨hv, _, hs1⟩ := h
      subst hv
      refine ⟨restBuf, rfl, ?_⟩
      rw [← hs1, hpw]
  · rw [if_pos h1] at h
    simp at h

theorem runQueueOps_fifo_aux {V : Type} (sc : V → Bool) (cp : V → V)
    (ops : List (QOp V)) (s : QState V) (received : List V) (sf : QState V)
    (hcos : s.copy_on_send = false) (hpw : s.putWaiters = [])
    (h : runQueueOps sc cp ops s = some (received, sf)) :
    s.buffer ++ sentValues ops = received ++ sf.buffer := by
  induction ops generalizing s received with
  | nil =>
    simp only [runQueueOps, Option.some.injEq, Prod.mk.injEq] at h
    obtain ⟨h1, h2⟩ := h
    subst h1
    subst h2
    simp [sentValues]
  | cons op rest ih =>
    cases op with
    | send v =>
      simp only [runQueueOps] at h
      cases hq : queueSend sc cp s 0 v with
      | ok s1 =>
        rw [hq] at h
        have hs1 := queueSend_ok_elim sc cp s 0 v s1 hcos hq
        subst hs1
        have := ih { s with buffer := s.buffer ++ [v] } received hcos hpw h
        simp only [sentValues]
        simpa using this
      | blocked s1 => rw [hq] at h; simp at h
      | raised e s1 => rw [hq] at h; simp at h
    | receive =>
      simp only [runQueueOps] at h
      cases hqr : queueReceive s 0 with
      | got v w s1 =>
        obtain ⟨restBuf, hb, hs1⟩ := queueReceive_got_elim s 0 v w s1 hpw hqr
        rw [hqr] at h
        cases hrun : runQueueOps sc cp rest s1 with
        | none =>
          simp only [hrun] at h
          exact Option.noConfusion h
        | some p =>
          obtain ⟨vs, s2⟩ := p
          simp only [hrun, Option.some.injEq, Prod.mk.injEq] at h
          obtain ⟨h1, h2⟩ := h
          subst h1
          subst h2
          have hx := ih s1 vs (by rw [hs1]; exact hcos) (by rw [hs1]; exact hpw) hrun
          have hs1b : s1.buffer = restBuf := by rw [hs1]
          rw [hs1b] at hx
          simp only [sentValues, hb]
          simpa using hx
      | blocked s1 => rw [hqr] at h; simp at h
      | raised e s1 => rw [hqr] at h; simp at h

/-- Claim C8: for a queue channel with a single sender, the values returned
by successive `receive` calls are the values passed to successive `send`
calls, in FIFO order; with an initially empty buffer, the received sequence
followed by what is still buffered is exactly the sent sequence. -/
theorem C8_queue_fifo {V : Type} (sc : V → Bool) (cp : V → V)
    (ops : List (QOp V)) (s : QState V) (received : List V) (sf : QState V)
    (hcos : s.copy_on_send = false) (hpw : s.putWaiters = [])
    (hbuf : s.buffer = [])
    (h : runQueueOps sc cp ops s = some (received, sf)) :
    received ++ sf.buffer = sentValues ops := by
  have := runQueueOps_fifo_aux sc cp ops s received sf hcos hpw h
  rw [hbuf] at this
  simpa using this.symm

/-- The queue state of the claim C8 scenario: capacity two, both endpoints
open, empty buffer. -/
def qFifoDemo : QState Nat := ⟨Book.created, 2, false, [], [], []⟩

/-- Witness for C8: `send(100); send(200); receive(); receive()` on a
capacity-2 queue returns `100` then `200`. -/
theorem C8_queue_fifo_witness :
    ([100, 200] : List Nat) ++ qFifoDemo.buffer =
      sentValues [QOp.send 100, QOp.send 200, QOp.receive, QOp.receive] :=
  C8_queue_fifo (fun _ => true) id
    [QOp.send 100, QOp.send 200, QOp.receive, QOp.receive]
    qFifoDemo [100, 200] qFifoDemo rfl rfl rfl (by decide)

/-! ## The `*_eventually` retry loops (lines 365-379 and 447-461)

`send_eventually` runs `while True: try: await self.send(value) except
DisconnectedError: await self.wait_for_receivers()`; `receive_eventually`
runs `while True: try: return await self.receive() except
DisconnectedError: await self.wait_for_senders()`.  One fuel unit is one
loop iteration on an open endpoint of a queue channel. -/

/-- Where the retry loop stands after the given number of iterations. -/
inductive EvOut (V : Type)
  | looping (s : QState V)
  | waitingSignal (s : QState V)
  | blockedInOp (s : QState V)
  | raised (e : ChanError) (s : QState V)
  | returned (v : Option V) (s : QState V)
deriving DecidableEq, Repr

/-- `Sender.send_eventually` (lines 365-379): each iteration tries
`self.send(value)`; `DisconnectedError` leads to `wait_for_receivers` and a
retry, any other exception propagates, and a completed `send` falls
through to the next iteration of `while True` — the loop body contains no
`return`. -/
def sendEventuallySteps (sc : V → Bool) (cp : V → V) (v : V) :
    Nat → QState V → EvOut V
  | 0, s => EvOut.looping s
  | fuel+1, s =>
    match queueSend sc cp s 0 v with
    | QSendOut.ok s1 => sendEventuallySteps sc cp v fuel s1
    | QSendOut.blocked s1 => EvOut.blockedInOp s1
    | QSendOut.raised ChanError.disconnected s1 =>
        if s1.book.receivers_available then sendEventuallySteps sc cp v fuel s1
        else EvOut.waitingSignal s1
    | QSendOut.raised e s1 => EvOut.raised e s1

/-- `Receiver.receive_eventually` (lines 447-461): identical shape, except
that a successful `receive` is returned (`return await self.receive()`). -/
def receiveEventuallySteps {V : Type} :
    Nat → QState V → EvOut V
  | 0, s => EvOut.looping s
  | fuel+1, s =>
    match queueReceive s 0 with
    | QRecvOut.got v _ s1 => EvOut.returned (some v) s1
    | QRecvOut.blocked s1 => EvOut.blockedInOp s1
    | QRecvOut.raised ChanError.disconnected s1 =>
        if s1.book.senders_available then receiveEventuallySteps fuel s1
        else EvOut.waitingSignal s1
    | QRecvOut.raised e s1 => EvOut.raised e s1

/-- The queue state of the C2 scenario: capacity three, both endpoints
open, empty buffer. -/
def qEvDemo : QState Nat := ⟨Book.created, 3, false, [], [], []⟩

/-- Claim C2: the call should return as soon as one attempt succeeds,
delivering exactly one value.  The code violates this for
`send_eventually`: after a successful send the loop runs again, so two
iterations of `send_eventually(7)` on an open capacity-3 queue enqueue `7`
twice, the loop can never produce a `returned` outcome at any fuel from
any state, while `receive_eventually` does return its first success. -/
theorem C2_send_eventually_resends :
    sendEventuallySteps (fun _ => true) id 7 2 qEvDemo =
      EvOut.looping ⟨Book.created, 3, false, [7, 7], [], []⟩ ∧
    (∀ (fuel : Nat) (s : QState Nat) (ov : Option Nat) (s1 : QState Nat),
      sendEventuallySteps (fun _ => true) id 7 fuel s ≠ EvOut.returned ov s1) ∧
    receiveEventuallySteps 1 (⟨Book.created, 3, false, [7], [], []⟩ : QState Nat) =
      EvOut.returned (some 7) ⟨Book.created, 3, false, [], [], []⟩ := by
  refine ⟨by decide, ?_, by decide⟩
  intro fuel
  induction fuel with
  | zero =>
    intro s ov s1 h
    simp [sendEventuallySteps] at h
  | succ n ih =>
    intro s ov s1 h
    unfold sendEventuallySteps at h
    split at h
    · exact ih _ ov s1 h
    · simp at h
    · split at h
      · exact ih _ ov s1 h
      · simp at h
    · simp at h

/-- The queue state of the C3 scenario: one open sender, one open
receiver, empty buffer, and one receiver task (task 7) suspended inside
`buffer.get()`. -/
def qCloseDemo : QState Nat := ⟨Book.created, 1, false, [], [7], []⟩

/-- Claim C3: closing the last endpoint of a role should clear the signal
and wake every task suspended on an operation depending on it.  The code
clears the signal but wakes nothing: after the only sender of `qCloseDemo`
closes, the sender count is zero and `senders_available` is cleared, yet
the set of tasks the close woke is empty and task 7 is still suspended in
`buffer.get()`, with no open sender left ever to wake it. -/
theorem C3_close_wakes_no_waiter :
    (queueCloseSender qCloseDemo).1.book.open_senders = 0 ∧
    (queueCloseSender qCloseDemo).1.book.senders_available = false ∧
    (queueCloseSender qCloseDemo).2 = [] ∧
    (queueCloseSender qCloseDemo).1.getWaiters = [7] := by
  decide

/-! ## Broadcast mode (`_BroadcastChannel`, lines 180-221)

One unbounded queue per connected receiver, kept in a dict keyed by the
receiver endpoint; iteration order is the dict's insertion order, modelled
by an association list. -/

structure BState (V : Type) where
  book : Book
  copy_on_send : Bool
  queues : List (Nat × List V)
deriving DecidableEq, Repr

/-- Outcome of `_BroadcastChannel.send`. -/
inductive BSendOut (V : Type)
  | ok (s : BState V)
  | raised (e : ChanError) (s : BState V)
deriving DecidableEq, Repr

/-- Outcome of `_BroadcastChannel.receive`. -/
inductive BRecvOut (V : Type)
  | got (v : V) (s : BState V)
  | blocked (s : BState V)
  | raised (e : ChanError) (s : BState V)
deriving DecidableEq, Repr

/-- `copy` applied the given number of times (`value.copy()` chained). -/
def iterCopy (copy : V → V) : Nat → V → V
  | 0, v => v
  | n+1, v => iterCopy copy n (copy v)

/-- The loop of `_BroadcastChannel.send` (lines 211-214): iterate the
snapshot of the queues in order; with `copy_on_send`, rebind `value` to
`value.copy()` before each enqueue, so each queue after the first receives
a copy of the previous queue's copy. -/
def broadcastSendLoop (copy : V → V) (cos : Bool) :
    List (Nat × List V) → V → List (Nat × List V)
  | [], _ => []
  | (i, q) :: rest, v =>
    let v1 := if cos then copy v else v
    (i, q ++ [v1]) :: broadcastSendLoop copy cos rest v1

/-- `_BroadcastChannel.send` (lines 203-214): the copy-contract type check
(without copying yet), the disconnection check, then the enqueue loop.
Broadcast `send` never suspends. -/
def broadcastSend (supportsCopy : V → Bool) (copy : V → V)
    (s : BState V) (value : V) : BSendOut V :=
  if s.copy_on_send ∧ ¬ supportsCopy value then
    BSendOut.raised ChanError.typeError s
  else if ¬ s.book.receivers_available then
    BSendOut.raised ChanError.disconnected s
  else
    BSendOut.ok { s with queues := broadcastSendLoop copy s.copy_on_send s.queues value }

/-- `_BroadcastChannel.receive` (lines 216-221): the disconnection check,
then `await self._queues[endpoint].get()` on the caller's own queue
(`KeyError` if the endpoint has no queue, suspension if it is empty). -/
def broadcastReceive (s : BState V) (endpoint : Nat) : BRecvOut V :=
  if ¬ s.book.senders_available then BRecvOut.raised ChanError.disconnected s
  else
    match (s.queues.lookup endpoint : Option (List V)) with
    | none => BRecvOut.raised ChanError.keyError s
    | some [] => BRecvOut.blocked s
    | some (v :: rest) =>
        let qs := s.queues.replaceF fun p =>
          if p.1 = endpoint then some (endpoint, rest) else none
        BRecvOut.got v { s with queues := qs }

theorem broadcastSendLoop_getD (copy : V → V) (queues : List (Nat × List V))
    (v : V) (i : Nat) (h : i < queues.length) :
    (broadcastSendLoop copy true queues v).getD i (0, []) =
      ((queues.getD i (0, [])).1,
       (queues.getD i (0, [])).2 ++ [iterCopy copy (i + 1) v]) := by
  induction queues generalizing v i with
  | nil => simp at h
  | cons p rest ih =>
    obtain ⟨j, q⟩ := p
    cases i with
    | zero =>
      simp [broadcastSendLoop, iterCopy]
    | succ k =>
      have hk : k < rest.length := by simpa using h
      have := ih (copy v) k hk
      simpa [broadcastSendLoop, iterCopy] using this

/-- Claim C9: in a broadcast channel with `copy_on_send`, one `send`
chains the copies: the first receiver queue gets `copy(value)`, and each
later queue gets a copy of the previous queue's copy, so the queue at
position `i` (0-based) receives `copy` applied `i + 1` times to the sent
value; the sent value itself is never enqueued as-is. -/
theorem C9_broadcast_copy_chain {V : Type} (supportsCopy : V → Bool) (copy : V → V)
    (s : BState V) (value : V) (s1 : BState V) (i : Nat)
    (hcos : s.copy_on_send = true)
    (hok : supportsCopy value = true)
    (hsend : broadcastSend supportsCopy copy s value = BSendOut.ok s1)
    (hi : i < s.queues.length) :
    s1.queues.getD i (0, []) =
      ((s.queues.getD i (0, [])).1,
       (s.queues.getD i (0, [])).2 ++ [iterCopy copy (i + 1) value]) := by
  have hs1 : s1.queues = broadcastSendLoop copy true s.queues value := by
    unfold broadcastSend at hsend
    rw [hcos, hok] at hsend
    by_cases hra : s.book.receivers_available
    · rw [hra] at hsend
      simp at hsend
      subst hsend
      rfl
    · simp only [Bool.not_eq_true] at hra
      rw [hra] at hsend
      simp at hsend
  rw [hs1]
  exact broadcastSendLoop_getD copy s.queues value i hi

/-- A three-receiver broadcast state with `copy_on_send`, before a send. -/
def bcDemo : BState Nat := ⟨Book.created, true, [(0, []), (1, []), (2, [])]⟩

/-- The state after `broadcastSend` of `10` with `copy = Nat.succ`. -/
def bcDemoAfter : BState Nat := ⟨Book.created, true, [(0, [11]), (1, [12]), (2, [13])]⟩

/-- Witness for C9: sending `10` through a three-receiver broadcast with
`copy = Nat.succ` puts `13 = succ^3 10` in the third receiver queue. -/
theorem C9_broadcast_copy_chain_witness :
    bcDemoAfter.queues.getD 2 (0, []) =
      ((bcDemo.queues.getD 2 (0, [])).1,
       (bcDemo.queues.getD 2 (0, [])).2 ++ [iterCopy Nat.succ (2 + 1) 10]) :=
  C9_broadcast_copy_chain (fun _ => true) Nat.succ bcDemo 10 bcDemoAfter 2
    rfl rfl (by decide) (by decide)

/-! ## Rendezvous mode (`_RendezvousChannel`, lines 224-277)

Events carry numeric identities; `setEvents` lists the identities on which
`set()` has been called; `nextEvent` numbers fresh `Event()` allocations
in program order.  Tasks are numeric identities; `done : Nat -> Bool` is
the `Task.done()` oracle. -/

structure RvState (V : Type) where
  book : Book
  copy_on_send : Bool
  sendersQ : List (V × Nat × Nat)
  receiversQ : List (Nat × Nat)
  setEvents : List Nat
  nextEvent : Nat
deriving DecidableEq, Repr

/-- Outcome of `_RendezvousChannel.send`: the task suspends on
`event.wait()` for the event with identity `waitEvent`, or an exception is
raised before the suspension. -/
inductive RvSendOut (V : Type)
  | suspended (waitEvent : Nat) (s : RvState V)
  | raised (e : ChanError) (s : RvState V)
deriving DecidableEq, Repr

/-- Outcome of one pass of `_RendezvousChannel.receive`: a value handed
over (after signalling that sender entry's acknowledgement event), or
suspension on a freshly enqueued receiver entry, or an exception. -/
inductive RvRecvOut (V : Type)
  | got (v : V) (s : RvState V)
  | suspended (waitEvent : Nat) (s : RvState V)
  | raised (e : ChanError) (s : RvState V)
deriving DecidableEq, Repr

/-- The wakeup loop of `send` (lines 250-254): pop receiver entries until
the first whose task is not done, set that entry's wakeup event, stop. -/
def wakeFirstLive (done : Nat → Bool) :
    List (Nat × Nat) → List Nat → List (Nat × Nat) × List Nat
  | [], evs => ([], evs)
  | (e, t) :: rest, evs =>
      if done t then wakeFirstLive done rest evs
      else (rest, evs ++ [e])

/-- `_RendezvousChannel.send` (lines 235-257): copy-contract check and
copy, disconnection check, then `event = Event()` (identity `nextEvent`),
then `self._senders.append((value, Event(), current_task()))` — the entry
stores a second, distinct `Event()` (identity `nextEvent + 1`) — then the
receiver wakeup loop, then `await event.wait()` on the first event. -/
def rvSend (supportsCopy : V → Bool) (copy : V → V) (done : Nat → Bool)
    (s : RvState V) (task : Nat) (value : V) : RvSendOut V :=
  if s.copy_on_send ∧ ¬ supportsCopy value then
    RvSendOut.raised ChanError.typeError s
  else
    let v := if s.copy_on_send then copy value else value
    if ¬ s.book.receivers_available then
      RvSendOut.raised ChanError.disconnected s
    else
      let waitEvent := s.nextEvent
      let entryEvent := s.nextEvent + 1
      let wr := wakeFirstLive done s.receiversQ s.setEvents
      RvSendOut.suspended waitEvent
        { s with sendersQ := s.sendersQ ++ [(v, entryEvent, task)],
                 receiversQ := wr.1,
                 setEvents := wr.2,
                 nextEvent := s.nextEvent + 2 }

/-- The scan of `receive` (lines 266-270): pop sender entries until the
first whose task is not done; dead entries are dropped unsignalled. -/
def scanSenders (done : Nat → Bool) :
    List (V × Nat × Nat) → Option (V × Nat × List (V × Nat × Nat))
  | [] => none
  | (v, ack, t) :: rest =>
      if done t then scanSenders done rest
      else some (v, ack, rest)

/-- One pass of `_RendezvousChannel.receive` (lines 259-277): the
disconnection check, then the sender scan — on a live entry set that
entry's acknowledgement event and return its value; with no live sender,
append `(Event(), current_task())` to the receiver list and suspend on
that fresh event. -/
def rvReceive (done : Nat → Bool) (s : RvState V) (task : Nat) : RvRecvOut V :=
  if ¬ s.book.senders_available then RvRecvOut.raised ChanError.disconnected s
  else
    match scanSenders done s.sendersQ with
    | some (v, ack, rest) =>
        RvRecvOut.got v { s with sendersQ := rest, setEvents := s.setEvents ++ [ack] }
    | none =>
        RvRecvOut.suspended s.nextEvent
          { s with receiversQ := s.receiversQ ++ [(s.nextEvent, task)],
                   nextEvent := s.nextEvent + 1 }

/-- The rendezvous state of the C1 scenario: both endpoints open, both
waiting lists empty, no event set. -/
def rvDemo : RvState Nat := ⟨Book.created, false, [], [], [], 0⟩

/-- The state after task 1 calls `send(5)` on `rvDemo`: the sender entry
stores acknowledgement event 1 while the call suspends on event 0. -/
def rvDemoSent : RvState Nat := ⟨Book.created, false, [(5, 1, 1)], [], [], 2⟩

/-- The state after task 2 then calls `receive()`: the entry is consumed,
its stored acknowledgement event 1 is set, and `5` is returned. -/
def rvDemoDone : RvState Nat := ⟨Book.created, false, [], [], [1], 2⟩

/-- Claim C1: a matched rendezvous send should suspend on the same
acknowledgement event its sender-list entry stores, so that the matching
receive unblocks it.  The code violates this: `send(5)` by task 1
suspends on event 0 but stores event 1 in its entry; the `receive()` by
task 2 consumes the entry, returns 5 and sets event 1 — event 0 is never
set, is referenced by no waiting-list entry afterwards, and differs from
the event the receive signalled, so the send never returns. -/
theorem C1_rendezvous_ack_mismatch :
    rvSend (fun _ => true) id (fun _ => false) rvDemo 1 5 =
      RvSendOut.suspended 0 rvDemoSent ∧
    rvDemoSent.sendersQ = [(5, 1, 1)] ∧
    rvReceive (fun _ => false) rvDemoSent 2 = RvRecvOut.got 5 rvDemoDone ∧
    rvDemoDone.setEvents = [1] ∧
    (0 ∈ rvDemoDone.setEvents) = False ∧
    rvDemoDone.sendersQ = [] ∧
    rvDemoDone.receiversQ = [] := by
  refine ⟨by decide, by decide, by decide, by decide, ?_, by decide, by decide⟩
  simp [rvDemoDone]

/-! ## Endpoint operations and the Closed state

An endpoint's channel reference is `Option`-valued: `none` is the Closed
state (`self._channel is None`). -/

/-- `Sender.send` (lines 358-363): `ClosedError` on a closed endpoint,
else delegate to the channel. -/
def senderSend (sc : V → Bool) (cp : V → V) (ch : Option (QState V))
    (task : Nat) (value : V) : Except ChanError (QSendOut V) :=
  match ch with
  | none => Except.error ChanError.closedError
  | some s => Except.ok (queueSend sc cp s task value)

/-- `Receiver.receive` (lines 440-445). -/
def receiverReceive (ch : Option (QState V)) (task : Nat) :
    Except ChanError (QRecvOut V) :=
  match ch with
  | none => Except.error ChanError.closedError
  | some s => Except.ok (queueReceive s task)

/-- `Sender.wait_for_receivers` (lines 381-393): `ClosedError` on a closed
endpoint, else `await receivers_available.wait()`, which proceeds at once
exactly when the signal is set. -/
def senderWaitForReceivers (ch : Option Book) : Except ChanError Bool :=
  match ch with
  | none => Except.error ChanError.closedError
  | some b => Except.ok b.receivers_available

/-- `Receiver.wait_for_senders` (lines 463-475). -/
def receiverWaitForSenders (ch : Option Book) : Except ChanError Bool :=
  match ch with
  | none => Except.error ChanError.closedError
  | some b => Except.ok b.senders_available

/-- `_Endpoint.clone` on a Sender (lines 307-313): on a closed endpoint the
code raises `ValueError` (line 310), not `ClosedError`; open endpoints go
through `Sender._init`. -/
def senderClone (sp : Bool) (ch : Option Book) : Except ChanError Book :=
  match ch with
  | none => Except.error ChanError.valueError
  | some b => senderInit sp b

/-- `_Endpoint.clone` on a Receiver. -/
def receiverClone (sc : Bool) (ch : Option Book) : Except ChanError Book :=
  match ch with
  | none => Except.error ChanError.valueError
  | some b => receiverInit sc b

/-- `Sender.derive_receiver` (lines 407-413): `ClosedError` on a closed
endpoint. -/
def senderDeriveReceiver (sc : Bool) (ch : Option Book) : Except ChanError Book :=
  match ch with
  | none => Except.error ChanError.closedError
  | some b => receiverInit sc b

/-- `Receiver.derive_sender` (lines 486-492). -/
def receiverDeriveSender (sp : Bool) (ch : Option Book) : Except ChanError Book :=
  match ch with
  | none => Except.error ChanError.closedError
  | some b => senderInit sp b

/-- `Sender.close` (lines 395-405): a no-op when already closed, else
`remove_sender` and clear the reference; result is the reference after the
call and the bookkeeping after the call (`none` when untouched). -/
def senderClose (ch : Option Book) : Option Book × Option Book :=
  match ch with
  | none => (none, none)
  | some b => (none, some (remove_sender b))

/-- `Receiver.close` (lines 477-484). -/
def receiverClose (ch : Option Book) : Option Book × Option Book :=
  match ch with
  | none => (none, none)
  | some b => (none, some (remove_receiver b))

/-- Claim C4: on a Closed endpoint every operation other than `close`,
`is_closed` and `repr` should raise `ClosedError`.  The code does so for
`send`, `receive`, `wait_for_*` and `derive_*`, and `close` is a no-op —
but `clone` raises `ValueError` instead of `ClosedError` on both roles,
contradicting the repository's own tests (`test_clone_closed_endpoint_raises`,
`test_clone_closed_receiver_raises`). -/
theorem C4_closed_endpoint_behaviour :
    senderSend (fun _ => true) id (none : Option (QState Nat)) 0 5 =
      Except.error ChanError.closedError ∧
    receiverReceive (none : Option (QState Nat)) 0 =
      Except.error ChanError.closedError ∧
    senderWaitForReceivers none = Except.error ChanError.closedError ∧
    receiverWaitForSenders none = Except.error ChanError.closedError ∧
    senderDeriveReceiver false none = Except.error ChanError.closedError ∧
    receiverDeriveSender false none = Except.error ChanError.closedError ∧
    senderClose none = (none, none) ∧
    receiverClose none = (none, none) ∧
    senderClone false none = Except.error ChanError.valueError ∧
    receiverClone false none = Except.error ChanError.valueError ∧
    senderClone false none ≠ Except.error ChanError.closedError ∧
    receiverClone false none ≠ Except.error ChanError.closedError := by
  refine ⟨rfl, rfl, rfl, rfl, rfl, rfl, rfl, rfl, rfl, rfl, ?_, ?_⟩ <;> simp [senderClone, receiverClone]

/-- `Receiver.close` on a broadcast channel (`Receiver.close`, lines
477-484, and `_BroadcastChannel.remove_receiver`, lines 198-201): besides
`remove_receiver` on the bookkeeping, the closing receiver's own queue is
popped from the dict; no suspended task is woken. -/
def broadcastCloseReceiver (s : BState V) (endpoint : Nat) : BState V × List Nat :=
  ({ s with book := remove_receiver s.book,
            queues := s.queues.filter (fun p => ¬ p.1 = endpoint) }, [])

/-- `Sender.close` on a broadcast channel: only `remove_sender` runs. -/
def broadcastCloseSender (s : BState V) : BState V × List Nat :=
  ({ s with book := remove_sender s.book }, [])

/-- `Receiver.close` on a rendezvous channel: only `remove_receiver` runs;
the waiting lists are untouched. -/
def rvCloseReceiver (s : RvState V) : RvState V × List Nat :=
  ({ s with book := remove_receiver s.book }, [])

/-- `Sender.close` on a rendezvous channel: only `remove_sender` runs. -/
def rvCloseSender (s : RvState V) : RvState V × List Nat :=
  ({ s with book := remove_sender s.book }, [])

theorem remove_receiver_last (b : Book) (h : b.open_receivers = 1) :
    (remove_receiver b).receivers_available = false := by
  unfold remove_receiver
  rw [h]
  simp

theorem remove_sender_last (b : Book) (h : b.open_senders = 1) :
    (remove_sender b).senders_available = false := by
  unfold remove_sender
  rw [h]
  simp

theorem queueSend_disconnected {V : Type} (sc : V → Bool) (cp : V → V)
    (qs : QState V) (task : Nat) (v : V)
    (h1 : qs.book.receivers_available = false)
    (hc : qs.copy_on_send = true → sc v = true) :
    queueSend sc cp qs task v = QSendOut.raised ChanError.disconnected qs := by
  unfold queueSend
  by_cases hcos : qs.copy_on_send = true
  · rw [hcos, hc hcos, h1]
    simp
  · simp only [Bool.not_eq_true] at hcos
    rw [hcos, h1]
    simp

theorem queueReceive_disconnected {V : Type} (qs : QState V) (task : Nat)
    (h2 : qs.book.senders_available = false) :
    queueReceive qs task = QRecvOut.raised ChanError.disconnected qs := by
  unfold queueReceive
  rw [h2]
  simp

theorem broadcastSend_disconnected {V : Type} (sc : V → Bool) (cp : V → V)
    (bs : BState V) (v : V)
    (h1 : bs.book.receivers_available = false)
    (hc : bs.copy_on_send = true → sc v = true) :
    broadcastSend sc cp bs v = BSendOut.raised ChanError.disconnected bs := by
  unfold broadcastSend
  by_cases hcos : bs.copy_on_send = true
  · rw [hcos, hc hcos, h1]
    simp
  · simp only [Bool.not_eq_true] at hcos
    rw [hcos, h1]
    simp

theorem broadcastReceive_disconnected {V : Type} (bs : BState V) (task : Nat)
    (h2 : bs.book.senders_available = false) :
    broadcastReceive bs task = BRecvOut.raised ChanError.disconnected bs := by
  unfold broadcastReceive
  rw [h2]
  simp

theorem rvSend_disconnected {V : Type} (sc : V → Bool) (cp : V → V)
    (done : Nat → Bool) (rs : RvState V) (task : Nat) (v : V)
    (h1 : rs.book.receivers_available = false)
    (hc : rs.copy_on_send = true → sc v = true) :
    rvSend sc cp done rs task v = RvSendOut.raised ChanError.disconnected rs := by
  unfold rvSend
  by_cases hcos : rs.copy_on_send = true
  · rw [hcos, hc hcos, h1]
    simp
  · simp only [Bool.not_eq_true] at hcos
    rw [hcos, h1]
    simp

theorem rvReceive_disconnected {V : Type} (done : Nat → Bool) (rs : RvState V)
    (task : Nat) (h2 : rs.book.senders_available = false) :
    rvReceive done rs task = RvRecvOut.raised ChanError.disconnected rs := by
  unfold rvReceive
  rw [h2]
  simp

/-- Claim C7: in every mode, a send that finds `receivers_available` clear
(resp. a receive that finds `senders_available` clear) — each conditioned
only on its own opposite-role signal — raises `DisconnectedError`
immediately, not `blocked`/`suspended`, leaving the channel state
untouched; in particular, after the last receiver closes the next send
disconnects, and symmetrically after the last sender closes the next
receive disconnects, in all three modes (precondition for the send cases
under `copy_on_send`: the value supports copying, since that check runs
first). -/
theorem C7_disconnected_immediate {V : Type} (sc : V → Bool) (cp : V → V)
    (done : Nat → Bool) (qsS qsR : QState V) (bsS bsR : BState V)
    (rsS rsR : RvState V) (task : Nat) (v : V)
    (hq1 : qsS.book.receivers_available = false)
    (hqc : qsS.copy_on_send = true → sc v = true)
    (hq2 : qsR.book.senders_available = false)
    (hb1 : bsS.book.receivers_available = false)
    (hbc : bsS.copy_on_send = true → sc v = true)
    (hb2 : bsR.book.senders_available = false)
    (hr1 : rsS.book.receivers_available = false)
    (hrc : rsS.copy_on_send = true → sc v = true)
    (hr2 : rsR.book.senders_available = false) :
    queueSend sc cp qsS task v = QSendOut.raised ChanError.disconnected qsS ∧
    queueReceive qsR task = QRecvOut.raised ChanError.disconnected qsR ∧
    broadcastSend sc cp bsS v = BSendOut.raised ChanError.disconnected bsS ∧
    broadcastReceive bsR task = BRecvOut.raised ChanError.disconnected bsR ∧
    rvSend sc cp done rsS task v = RvSendOut.raised ChanError.disconnected rsS ∧
    rvReceive done rsR task = RvRecvOut.raised ChanError.disconnected rsR ∧
    (∀ qs2 : QState V, qs2.book.open_receivers = 1 →
      (qs2.copy_on_send = true → sc v = true) →
      queueSend sc cp (queueCloseReceiver qs2).1 task v =
        QSendOut.raised ChanError.disconnected (queueCloseReceiver qs2).1) ∧
    (∀ qs3 : QState V, qs3.book.open_senders = 1 →
      queueReceive (queueCloseSender qs3).1 task =
        QRecvOut.raised ChanError.disconnected (queueCloseSender qs3).1) ∧
    (∀ (bs2 : BState V) (ep : Nat), bs2.book.open_receivers = 1 →
      (bs2.copy_on_send = true → sc v = true) →
      broadcastSend sc cp (broadcastCloseReceiver bs2 ep).1 v =
        BSendOut.raised ChanError.disconnected (broadcastCloseReceiver bs2 ep).1) ∧
    (∀ bs3 : BState V, bs3.book.open_senders = 1 →
      broadcastReceive (broadcastCloseSender bs3).1 task =
        BRecvOut.raised ChanError.disconnected (broadcastCloseSender bs3).1) ∧
    (∀ rs2 : RvState V, rs2.book.open_receivers = 1 →
      (rs2.copy_on_send = true → sc v = true) →
      rvSend sc cp done (rvCloseReceiver rs2).1 task v =
        RvSendOut.raised ChanError.disconnected (rvCloseReceiver rs2).1) ∧
    (∀ rs3 : RvState V, rs3.book.open_senders = 1 →
      rvReceive done (rvCloseSender rs3).1 task =
        RvRecvOut.raised ChanError.disconnected (rvCloseSender rs3).1) := by
  refine ⟨queueSend_disconnected sc cp qsS task v hq1 hqc,
          queueReceive_disconnected qsR task hq2,
          broadcastSend_disconnected sc cp bsS v hb1 hbc,
          broadcastReceive_disconnected bsR task hb2,
          rvSend_disconnected sc cp done rsS task v hr1 hrc,
          rvReceive_disconnected done rsR task hr2,
          ?_, ?_, ?_, ?_, ?_, ?_⟩
  · intro qs2 hone hc2
    exact queueSend_disconnected sc cp (queueCloseReceiver qs2).1 task v
      (remove_receiver_last qs2.book hone) hc2
  · intro qs3 hone
    exact queueReceive_disconnected (queueCloseSender qs3).1 task
      (remove_sender_last qs3.book hone)
  · intro bs2 ep hone hc2
    exact broadcastSend_disconnected sc cp (broadcastCloseReceiver bs2 ep).1 v
      (remove_receiver_last bs2.book hone) hc2
  · intro bs3 hone
    exact broadcastReceive_disconnected (broadcastCloseSender bs3).1 task
      (remove_sender_last bs3.book hone)
  · intro rs2 hone hc2
    exact rvSend_disconnected sc cp done (rvCloseReceiver rs2).1 task v
      (remove_receiver_last rs2.book hone) hc2
  · intro rs3 hone
    exact rvReceive_disconnected done (rvCloseSender rs3).1 task
      (remove_sender_last rs3.book hone)

/-- A queue state whose open sender finds no receivers. -/
def qSendDiscDemo : QState Nat := ⟨⟨1, 0, true, false⟩, 1, false, [], [], []⟩

/-- A queue state whose open receiver finds no senders. -/
def qRecvDiscDemo : QState Nat := ⟨⟨0, 1, false, true⟩, 1, false, [], [], []⟩

/-- A broadcast state whose open sender finds no receivers. -/
def bSendDiscDemo : BState Nat := ⟨⟨1, 0, true, false⟩, false, []⟩

/-- A broadcast state whose open receiver finds no senders. -/
def bRecvDiscDemo : BState Nat := ⟨⟨0, 1, false, true⟩, false, []⟩

/-- A rendezvous state whose open sender finds no receivers. -/
def rSendDiscDemo : RvState Nat := ⟨⟨1, 0, true, false⟩, false, [], [], [], 0⟩

/-- A rendezvous state whose open receiver finds no senders. -/
def rRecvDiscDemo : RvState Nat := ⟨⟨0, 1, false, true⟩, false, [], [], [], 0⟩

/-- A queue state with exactly one open sender and one open receiver. -/
def qLastDemo : QState Nat := ⟨Book.created, 1, false, [], [], []⟩

/-- A broadcast state with exactly one open sender and one open receiver. -/
def bLastDemo : BState Nat := ⟨Book.created, false, [(0, [])]⟩

/-- A rendezvous state with exactly one open sender and one open receiver. -/
def rLastDemo : RvState Nat := ⟨Book.created, false, [], [], [], 0⟩

/-- Witness for C7 at concrete one-sidedly disconnected states of all
three modes, including both close-the-last-endpoint directions. -/
theorem C7_disconnected_immediate_witness :
    queueSend (fun _ => true) id qSendDiscDemo 0 5 =
      QSendOut.raised ChanError.disconnected qSendDiscDemo ∧
    queueReceive qRecvDiscDemo 0 =
      QRecvOut.raised ChanError.disconnected qRecvDiscDemo ∧
    broadcastSend (fun _ => true) id bSendDiscDemo 5 =
      BSendOut.raised ChanError.disconnected bSendDiscDemo ∧
    broadcastReceive bRecvDiscDemo 0 =
      BRecvOut.raised ChanError.disconnected bRecvDiscDemo ∧
    rvSend (fun _ => true) id (fun _ => false) rSendDiscDemo 0 5 =
      RvSendOut.raised ChanError.disconnected rSendDiscDemo ∧
    rvReceive (fun _ => false) rRecvDiscDemo 0 =
      RvRecvOut.raised ChanError.disconnected rRecvDiscDemo ∧
    queueSend (fun _ => true) id (queueCloseReceiver qLastDemo).1 0 5 =
      QSendOut.raised ChanError.disconnected (queueCloseReceiver qLastDemo).1 ∧
    queueReceive (queueCloseSender qLastDemo).1 0 =
      QRecvOut.raised ChanError.disconnected (queueCloseSender qLastDemo).1 ∧
    broadcastSend (fun _ => true) id (broadcastCloseReceiver bLastDemo 0).1 5 =
      BSendOut.raised ChanError.disconnected (broadcastCloseReceiver bLastDemo 0).1 ∧
    broadcastReceive (broadcastCloseSender bLastDemo).1 0 =
      BRecvOut.raised ChanError.disconnected (broadcastCloseSender bLastDemo).1 ∧
    rvSend (fun _ => true) id (fun _ => false) (rvCloseReceiver rLastDemo).1 0 5 =
      RvSendOut.raised ChanError.disconnected (rvCloseReceiver rLastDemo).1 ∧
    rvReceive (fun _ => false) (rvCloseSender rLastDemo).1 0 =
      RvRecvOut.raised ChanError.disconnected (rvCloseSender rLastDemo).1 := by
  obtain ⟨w1, w2, w3, w4, w5, w6, w7, w8, w9, w10, w11, w12⟩ :=
    C7_disconnected_immediate (fun _ => true) id (fun _ => false)
      qSendDiscDemo qRecvDiscDemo bSendDiscDemo bRecvDiscDemo
      rSendDiscDemo rRecvDiscDemo 0 5
      rfl (fun _ => rfl) rfl rfl (fun _ => rfl) rfl rfl (fun _ => rfl) rfl
  exact ⟨w1, w2, w3, w4, w5, w6,
         w7 qLastDemo rfl (fun _ => rfl),
         w8 qLastDemo rfl,
         w9 bLastDemo 0 rfl (fun _ => rfl),
         w10 bLastDemo rfl,
         w11 rLastDemo rfl (fun _ => rfl),
         w12 rLastDemo rfl⟩

/-- State preservation on the error outcomes of `_QueueChannel.send`. -/
def qSendPreserves (s : QState V) : QSendOut V → Prop
  | QSendOut.raised _ s1 => s1 = s
  | _ => True

/-- State preservation on the error outcomes of `_QueueChannel.receive`. -/
def qRecvPreserves (s : QState V) : QRecvOut V → Prop
  | QRecvOut.raised _ s1 => s1 = s
  | _ => True

/-- State preservation on the error outcomes of `_BroadcastChannel.send`. -/
def bSendPreserves (s : BState V) : BSendOut V → Prop
  | BSendOut.raised _ s1 => s1 = s
  | _ => True

/-- State preservation on the error outcomes of `_BroadcastChannel.receive`. -/
def bRecvPreserves (s : BState V) : BRecvOut V → Prop
  | BRecvOut.raised _ s1 => s1 = s
  | _ => True

/-- State preservation on the error outcomes of `_RendezvousChannel.send`. -/
def rvSendPreserves (s : RvState V) : RvSendOut V → Prop
  | RvSendOut.raised _ s1 => s1 = s
  | _ => True

/-- State preservation on the error outcomes of `_RendezvousChannel.receive`. -/
def rvRecvPreserves (s : RvState V) : RvRecvOut V → Prop
  | RvRecvOut.raised _ s1 => s1 = s
  | _ => True

/-- State preservation on the error outcomes of a lifecycle operation. -/
def opResPreserves (s : SysState) : OpRes SysState → Prop
  | OpRes.raised _ s1 => s1 = s
  | _ => True

/-- Claim C10: every error any of `send`, `receive`, `clone` or `derive_*`
raises — `DisconnectedError`, `ClosedError`, the configuration
`ValueError`, the copy-contract `TypeError`, `KeyError` — is raised before
the channel state is touched: the state observed after the exception is
exactly the state before the call, in every mode and in the endpoint
lifecycle layer. -/
theorem C10_error_atomicity {V : Type} (sc : V → Bool) (cp : V → V)
    (done : Nat → Bool) (qs : QState V) (bs : BState V) (rs : RvState V)
    (sys : SysState) (sp scons : Bool) (task i : Nat) (v : V) :
    qSendPreserves qs (queueSend sc cp qs task v) ∧
    qRecvPreserves qs (queueReceive qs task) ∧
    bSendPreserves bs (broadcastSend sc cp bs v) ∧
    bRecvPreserves bs (broadcastReceive bs task) ∧
    rvSendPreserves rs (rvSend sc cp done rs task v) ∧
    rvRecvPreserves rs (rvReceive done rs task) ∧
    opResPreserves sys (cloneSenderOp sp sys i) ∧
    opResPreserves sys (cloneReceiverOp scons sys i) ∧
    opResPreserves sys (deriveReceiverOp scons sys i) ∧
    opResPreserves sys (deriveSenderOp sp sys i) := by
  refine ⟨?_, ?_, ?_, ?_, ?_, ?_, ?_, ?_, ?_, ?_⟩
  · unfold queueSend
    split_ifs <;> simp [qSendPreserves]
  · unfold queueReceive
    split_ifs with h1
    · rcases hb : qs.buffer with _ | ⟨x, rest⟩ <;>
        rcases hpw : qs.putWaiters with _ | ⟨p, ps⟩ <;>
        simp [qRecvPreserves]
    · simp [qRecvPreserves]
  · unfold broadcastSend
    split_ifs <;> simp [bSendPreserves]
  · unfold broadcastReceive
    split_ifs with h1
    · rcases hl : (bs.queues.lookup task : Option (List V)) with _ | ⟨_ | ⟨x, rest⟩⟩ <;>
        simp [bRecvPreserves]
    · simp [bRecvPreserves]
  · unfold rvSend
    split_ifs <;> simp [rvSendPreserves]
  · unfold rvReceive
    split_ifs with h1
    · rcases hsc : scanSenders done rs.sendersQ with _ | ⟨x, ack, rest⟩ <;>
        simp [rvRecvPreserves]
    · simp [rvRecvPreserves]
  · unfold cloneSenderOp senderInit
    split_ifs <;> simp [opResPreserves]
  · unfold cloneReceiverOp receiverInit
    split_ifs <;> simp [opResPreserves]
  · unfold deriveReceiverOp receiverInit
    split_ifs <;> simp [opResPreserves]
  · unfold deriveSenderOp senderInit
    split_ifs <;> simp [opResPreserves]

end Klever
